import Mathlib

/-!
Verification of the watchdog_plus manager and service modules.

The Python source is shallowly embedded: strings are lists of characters,
the mutable registries become explicit state passing, raised exceptions
become `Except` / `Option` error results, and the filesystem and process
table are explicit association lists / line lists threaded through the
operations that touch them.
-/

set_option maxRecDepth 10000

/-- Strings of the embedded program are lists of characters. -/
abbrev Str := List Char

/-- The space character (written by code point to keep literals simple). -/
def spaceChar : Char := Char.ofNat 32

/-- The single-quote character. -/
def quoteChar : Char := Char.ofNat 39

/-- The double-quote character. -/
def dquoteChar : Char := Char.ofNat 34

/-- The backslash character. -/
def backslashChar : Char := Char.ofNat 92

/-- The opening-brace character. -/
def lbrace : Char := Char.ofNat 123

/-- The closing-brace character. -/
def rbrace : Char := Char.ofNat 125

/-- Errors raised by the embedded code: the watchdog_plus.errors exceptions
plus the Python built-ins the source actually raises — AttributeError (the
ServiceName descriptor reads the unmangled attribute key, see
`Service.nameAttr`) and TypeError (a constructor called with an argument
list its `__init__` does not accept). -/
inductive WErr where
  | alreadyExists
  | doesNotExist
  | serviceNotFound
  | servicePIDNotFound
  | attributeError
  | typeError
  deriving DecidableEq, Repr

/-- Does `pat` occur at the head of `l`?  Embeds the prefix step of
Python's substring test. -/
def leadsWith : Str → Str → Bool
  | [], _ => true
  | _ :: _, [] => false
  | a :: pa, b :: lb => a == b && leadsWith pa lb

/-- Python's `pat in l` substring test on character lists. -/
def containsSub : Str → Str → Bool
  | pat, [] => leadsWith pat []
  | pat, b :: rest => leadsWith pat (b :: rest) || containsSub pat rest

/-- ItemCollection.append from watchdog_plus.managers: the `for` loop raises
`AlreadyExists` on the first item whose name equals the new item's name,
otherwise the item is appended at the end.  `nameOf` abstracts the `.name`
attribute access. -/
def collAppend (nameOf : α → Str) (l : List α) (v : α) : Except WErr (List α) :=
  if l.any (fun it => nameOf it == nameOf v) then
    Except.error WErr.alreadyExists
  else
    Except.ok (l ++ [v])

/-- ItemCollection.get_item from watchdog_plus.managers: linear scan returning
the first item with the requested name, raising `DoesNotExist` otherwise. -/
def collGet (nameOf : α → Str) (l : List α) (nm : Str) : Except WErr α :=
  match l.find? (fun it => nameOf it == nm) with
  | some it => Except.ok it
  | none => Except.error WErr.doesNotExist

/-- A registry item for the ItemCollection theorems: a name plus a payload
distinguishing items that share nothing else. -/
structure RItem where
  name : Str
  tag : Nat
  deriving DecidableEq, Repr

/-! ## Observer manager (watchdog_plus.managers.BaseObserverManager) -/

/-- An observer handle: `create_observer` tags the engine instance with a
name after scheduling a handler on the path.  The configuration captured by
the `partial` applications at construction time is recorded per observer
(`engineCfg` and `handlerCfg` stand for the argument lists the engine and
handler instances were built with). -/
structure Observer where
  name : Str
  path : Str
  recursive : Bool
  engineCfg : List Nat
  handlerCfg : List Nat
  deriving DecidableEq, Repr

/-- BaseObserverManager state: the configuration accumulated on the observer
and handler classes by `observer_config` / `handler_config` (Python `partial`
applications accumulate positional arguments), plus the ItemCollection of
created observers. -/
structure OMState where
  observerCfg : List Nat
  handlerCfg : List Nat
  observers : List Observer
  deriving DecidableEq, Repr

/-- BaseObserverManager.observer_config: wraps the observer class in
`partial(ObserverClass, *args)`, so subsequently constructed engine instances
receive the accumulated arguments.  The registry of already-created observers
is not touched. -/
def observer_config (st : OMState) (args : List Nat) : OMState :=
  { st with observerCfg := st.observerCfg ++ args }

/-- BaseObserverManager.handler_config: same as `observer_config` for the
handler class. -/
def handler_config (st : OMState) (args : List Nat) : OMState :=
  { st with handlerCfg := st.handlerCfg ++ args }

/-- The constructor call of WatchdogPlusObserver: its `__init__` takes no
arguments beyond self, so the call made by create_observer succeeds exactly
when the partial-applied configuration is empty, and raises TypeError
otherwise. -/
def watchdogPlusObserverNew (args : List Nat) : Except WErr Unit :=
  if args = [] then Except.ok () else Except.error WErr.typeError

/-- The constructor call of WatchdogPlusLogEventHandler: its `__init__` is
`(self, filter_modified, log_file=None)`, so the call succeeds exactly when
the partial-applied configuration supplies one or two arguments
(filter_modified required, log_file optional; demo.py passes
filter_modified via handler_config before creating observers) and raises
TypeError otherwise — in particular a bare default manager's first
create_observer raises TypeError. -/
def watchdogPlusLogEventHandlerNew (args : List Nat) : Except WErr Unit :=
  if args.length = 1 ∨ args.length = 2 then Except.ok () else Except.error WErr.typeError

/-- BaseObserverManager.create_observer: calls the configured observer class
(`self.ObserverClass()` — `engineNew` applied to the accumulated partial
arguments, which may raise TypeError), then the configured handler class
(`self.HandlerClass()` — `handlerNew`, same), schedules the handler, names
the observer, and appends it to the ItemCollection (which raises
`AlreadyExists` on a duplicate name, in which case the registry is
unchanged).  The engine's own scheduling is the out-of-scope external
capability; the observer value records what was registered with it. -/
def create_observer (engineNew handlerNew : List Nat → Except WErr Unit)
    (st : OMState) (path name : Str) (recursive : Bool) :
    OMState × Except WErr Observer :=
  match engineNew st.observerCfg with
  | Except.error e => (st, Except.error e)
  | Except.ok _ =>
    match handlerNew st.handlerCfg with
    | Except.error e => (st, Except.error e)
    | Except.ok _ =>
      let obs : Observer :=
        { name := name, path := path, recursive := recursive,
          engineCfg := st.observerCfg, handlerCfg := st.handlerCfg }
      match collAppend Observer.name st.observers obs with
      | Except.ok l => ({ st with observers := l }, Except.ok obs)
      | Except.error e => (st, Except.error e)

/-- BaseObserverManager.get_observer: ItemCollection.get_item by name. -/
def get_observer (st : OMState) (name : Str) : Except WErr Observer :=
  collGet Observer.name st.observers name

/-- Names stored in the manager's registry are pairwise distinct. -/
def obsNamesNodup (st : OMState) : Prop :=
  (st.observers.map Observer.name).Nodup

/-! ## Concurrent fan-out start (BaseObserverManager.__start_observers)

The pool launches one worker per observer via `Executor.map`.  `Executor.map`
submits every task eagerly; each worker runs `__start_observer` on its own
observer, and an exception raised inside a worker is stored in that worker's
future.  The source never iterates the iterator returned by `map` and never
calls `result()` on any future, so no worker exception reaches the caller.
`run` abstracts what `__start_observer` does for a given observer (`Except`
models a raised exception), and observers are indices into the batch. -/

/-- Futures produced by `Executor.map`: every task is submitted and executed;
the future of worker `i` holds the outcome of running observer `i`. -/
def submitAll (run : Nat → Except Unit Unit) : List Nat → List (Except Unit Unit)
  | [] => []
  | o :: rest => run o :: submitAll run rest

/-- BaseObserverManager.__start_observers: the pool maps the worker body over
the observers and discards the returned iterator, so the call returns
normally whatever the workers did. -/
def start_observers_run (run : Nat → Except Unit Unit) (observers : List Nat) :
    Except Unit Unit :=
  let futures := submitAll run observers
  match futures with
  | _ => Except.ok ()

/-! ## Services (watchdog_plus.services.WatchDogPlusService) -/

/-- os.mkdir wrapped in `except FileExistsError: pass`. -/
def mkdirIdem (dirs : List Str) (d : Str) : List Str :=
  if d ∈ dirs then dirs else dirs ++ [d]

/-- Characters CPython's shlex.quote leaves unquoted: ASCII word characters
plus `@ % + = : , . / -`. -/
def isShlexSafe (c : Char) : Bool :=
  c.isAlphanum || c == '_' || c == '@' || c == '%' || c == '+' || c == '=' ||
    c == ':' || c == ',' || c == '.' || c == '/' || c == '-'

/-- The shlex.quote escape: each single quote becomes quote, double quote,
quote, double quote, quote. -/
def escQuote : Str → Str
  | [] => []
  | c :: rest =>
    if c = quoteChar then
      quoteChar :: dquoteChar :: quoteChar :: dquoteChar :: quoteChar :: escQuote rest
    else
      c :: escQuote rest

/-- CPython shlex.quote: the empty string becomes two quotes, a string of
safe characters is returned unchanged, anything else is wrapped in single
quotes with embedded quotes escaped. -/
def shlexQuote (s : Str) : Str :=
  if s = [] then [quoteChar, quoteChar]
  else if s.all isShlexSafe then s
  else quoteChar :: escQuote s ++ [quoteChar]

/-- Python str.lower on the ASCII range (the service code only lowercases
names; `Char.toLower` matches CPython on ASCII). -/
def lowerStr (s : Str) : Str := s.map Char.toLower

/-- posixpath.join for the two-argument uses in the source: an absolute
second component wins, otherwise a slash separates the parts unless the
first already ends in one. -/
def pathJoin (a b : Str) : Str :=
  if b.head? = some '/' then b
  else if a = [] then b
  else if a.getLast? = some '/' then a ++ b
  else a ++ '/' :: b

/-- Python str.format restricted to templates whose only replacement fields
are empty braces, as produced by the source's `"{}_service.py"` patterns:
every adjacent open-close brace pair is replaced by the argument.  (CPython
raises on templates where fields and arguments do not match one to one; the
source's templates contain a single field whenever the service name contains
no brace.) -/
def pyFormat : Str → Str → Str
  | [], _ => []
  | [c], _ => [c]
  | c :: d :: rest, arg =>
    if c = lbrace ∧ d = rbrace then arg ++ pyFormat rest arg
    else c :: pyFormat (d :: rest) arg

/-- getattr on a modelled instance dictionary: returns the stored value or
raises AttributeError when the key is absent. -/
def pyGetAttr (dict : List (Str × Str)) (key : Str) : Except WErr Str :=
  match dict.find? (fun p => p.1 == key) with
  | some p => Except.ok p.2
  | none => Except.error WErr.attributeError

/-- The instance-dictionary key under which `self.__name = name` stores the
service name: Python mangles the identifier `__name` inside class
WatchDogPlusService to `_WatchDogPlusService__name`. -/
def mangledNameKey : Str := ("_WatchDogPlusService__name").data

/-- The key ServiceName.__get__ looks up: `getattr(obj, "__name")` — a string
literal, which Python does NOT mangle. -/
def serviceNameKey : Str := ("__name").data

/-- WatchDogPlusService: the name-related slots of the instance __dict__
(holding the mangled name entry), the monitored path, the service directory
and the is_active flag.  The derived file names and commands are recomputed
on each access, below, and every read of the `name` descriptor goes through
`Service.nameAttr`. -/
structure Service where
  nameDict : List (Str × Str)
  path : Str
  service_dir : Str
  is_active : Bool
  deriving DecidableEq, Repr

/-- ServiceName.__get__: `getattr(obj, "__name")`.  Because __init__ stored
the name under the mangled key, this lookup fails with AttributeError on
every service the program constructs. -/
def Service.nameAttr (svc : Service) : Except WErr Str :=
  pyGetAttr svc.nameDict serviceNameKey

/-- WatchDogPlusService.__init__: `self.__name = name` stores the name under
the mangled key; with no service_dir the default-directory f-string reads
`self.name`, which raises AttributeError before os.mkdir runs; with an
explicit directory the constructor succeeds and creates the directory
(idempotently).  Returns the updated directory set and the constructed
service or the raised error. -/
def mkService (dirs : List Str) (path name : Str) (service_dir : Option Str) :
    List Str × Except WErr Service :=
  let d0 : List (Str × Str) := [(mangledNameKey, name)]
  match service_dir with
  | none =>
    match pyGetAttr d0 serviceNameKey with
    | Except.error e => (dirs, Except.error e)
    | Except.ok n =>
      let dir := n ++ (" watchdog-service").data
      (mkdirIdem dirs dir, Except.ok (Service.mk d0 path dir false))
  | some dir => (mkdirIdem dirs dir, Except.ok (Service.mk d0 path dir false))

/-- WatchDogPlusService.service_file: reads `self.name` (which raises
AttributeError for program-built services), then
`os.path.join(service_dir, "{}_service.py").format(shlex.quote(name.lower()))`. -/
def Service.serviceFile (svc : Service) : Except WErr Str :=
  match Service.nameAttr svc with
  | Except.error e => Except.error e
  | Except.ok n =>
    Except.ok (pyFormat (pathJoin svc.service_dir (lbrace :: rbrace :: ("_service.py").data))
      (shlexQuote (lowerStr n)))

/-- WatchDogPlusService.output_file: same shape as service_file with the
"_output.txt" template; also raises AttributeError reading `self.name`. -/
def Service.outputFile (svc : Service) : Except WErr Str :=
  match Service.nameAttr svc with
  | Except.error e => Except.error e
  | Except.ok n =>
    Except.ok (pyFormat (pathJoin svc.service_dir (lbrace :: rbrace :: ("_output.txt").data))
      (shlexQuote (lowerStr n)))

/-- Joining with single spaces, as `" ".join` does. -/
def spaceJoin : List Str → Str
  | [] => []
  | [x] => x
  | x :: y :: rest => x ++ spaceChar :: spaceJoin (y :: rest)

/-- WatchDogPlusService.__get_launch_command: `" ".join(["nohup", "python3",
"-u", quote(service_file), " > " + quote(output_file) + " &"])`; the
service_file and output_file properties both read `self.name`, so the AttributeError
propagates and the command is never produced for program-built services. -/
def Service.launchCommand (svc : Service) : Except WErr Str :=
  match Service.serviceFile svc with
  | Except.error e => Except.error e
  | Except.ok sf =>
    match Service.outputFile svc with
    | Except.error e => Except.error e
    | Except.ok ofile =>
      Except.ok (spaceJoin
        [("nohup").data, ("python3").data, ("-u").data,
          shlexQuote sf,
          spaceChar :: '>' :: spaceChar :: (shlexQuote ofile ++ [spaceChar, '&'])])

/-- The process-table signature searched for by pid discovery:
`"python3 -u ./<name-lowercased>_service"`. -/
def pid_pattern (name : Str) : Str :=
  ("python3 -u ./").data ++ lowerStr name ++ ("_service").data

/-- Python str.split with no separator: split on whitespace runs, dropping
empty fields. -/
def pyWords : Str → List Str
  | [] => []
  | c :: rest =>
    if c = spaceChar ∨ c = '\t' ∨ c = '\n' ∨ c = '\r' then pyWords rest
    else
      match pyWords rest with
      | [] => [[c]]
      | w :: ws =>
        match rest with
        | [] => [[c]]
        | d :: _ =>
          if d = spaceChar ∨ d = '\t' ∨ d = '\n' ∨ d = '\r' then [c] :: w :: ws
          else (c :: w) :: ws

/-- Python int() on a whitespace-free token: an optional sign followed by at
least one decimal digit. -/
def pyInt (s : Str) : Option Int :=
  match s with
  | [] => none
  | '-' :: rest =>
    if rest ≠ [] ∧ rest.all Char.isDigit then
      some (-(Int.ofNat (rest.foldl (fun n c => 10 * n + (c.toNat - 48)) 0)))
    else none
  | '+' :: rest =>
    if rest ≠ [] ∧ rest.all Char.isDigit then
      some (Int.ofNat (rest.foldl (fun n c => 10 * n + (c.toNat - 48)) 0))
    else none
  | _ =>
    if s.all Char.isDigit then
      some (Int.ofNat (s.foldl (fun n c => 10 * n + (c.toNat - 48)) 0))
    else none

/-- The parse step of WatchDogPlusService.__get_pid on the first matching
line: `int(match.split()[1])`; IndexError or ValueError become
ServicePIDNotFound. -/
def pidOfLine (line : Str) : Except WErr Int :=
  match (pyWords line)[1]? with
  | none => Except.error WErr.servicePIDNotFound
  | some tok =>
    match pyInt tok with
    | none => Except.error WErr.servicePIDNotFound
    | some pid => Except.ok pid

/-- WatchDogPlusService.__get_pid: runs `ps -fU $USER` (its output lines are
the `psLines` parameter), then builds the signature from `self.name.lower()`
— which raises AttributeError for every program-built service, before any
line is inspected — then scans for the signature, takes the first matching
line (`[...][0]`), and parses the second whitespace-separated column as the
pid; IndexError (no match or a short line) and ValueError (non-integer
column) are turned into ServicePIDNotFound. -/
def get_pid (svc : Service) (psLines : List Str) : Except WErr Int :=
  match Service.nameAttr svc with
  | Except.error e => Except.error e
  | Except.ok n =>
    match psLines.filter (fun line => containsSub (pid_pattern n) line) with
    | [] => Except.error WErr.servicePIDNotFound
    | m :: _ => pidOfLine m

/-! ## Service manager (watchdog_plus.managers.ServiceManager) -/

/-- Python repr escaping for one quote style: backslashes and the chosen
quote get a backslash.  (Control-character escapes are out of scope; the
embedded scripts contain none.) -/
def pyReprEsc (q : Char) : Str → Str
  | [] => []
  | c :: rest =>
    if c = backslashChar ∨ c = q then backslashChar :: c :: pyReprEsc q rest
    else c :: pyReprEsc q rest

/-- Python repr of a string: single quotes unless the string contains a
single quote and no double quote. -/
def pyRepr (s : Str) : Str :=
  if quoteChar ∈ s ∧ ¬ dquoteChar ∈ s then
    dquoteChar :: pyReprEsc dquoteChar s ++ [dquoteChar]
  else
    quoteChar :: pyReprEsc quoteChar s ++ [quoteChar]

/-- The script text rendered by ServiceManager.create_service.  `path` and
`name` are interpolated with `!r` (repr); the output file and the
`start_observer` argument are interpolated plainly, exactly as in the
source f-string.  `handler` carries the printed name of the handler class,
`none` printing as `None` with no import line. -/
def genBlock (path name output : Str) (handler : Option Str) : Str :=
  let handlerText := match handler with
    | none => ("None").data
    | some h => h
  let handlerImport := match handler with
    | none => []
    | some h => ("from watchdog_plus.managers import ").data ++ h ++ ['\n']
  ("\n# generated by watchdog-service\n\n# Imports if any\n").data
  ++ handlerImport
  ++ ("\nfrom watchdog_plus.managers import ObserverManager\n\n# path to monitor\npath = ").data
  ++ pyRepr path
  ++ ("\n\n# create an observer manager with a custom handler if any\nmanager = ObserverManager(handler=").data
  ++ handlerText
  ++ (") \nmanager.create_observer(path, name=").data
  ++ pyRepr name
  ++ (", log_file=").data
  ++ output
  ++ (")\n\n# launch observer\nmanager.start_observer(").data
  ++ name
  ++ (")\n                    ").data

/-- ServiceManager state: the ItemCollection of services plus the files and
directories the manager has touched (an association list from path to
content, and the set of created directories). -/
structure SMState where
  services : List Service
  files : List (Str × Str)
  dirs : List Str
  deriving DecidableEq, Repr

/-- open(file, "w") followed by write: creates or overwrites. -/
def fsWrite (files : List (Str × Str)) (f c : Str) : List (Str × Str) :=
  files.filter (fun p => !(p.1 == f)) ++ [(f, c)]

/-- os.remove: deletes the file, or fails (FileNotFoundError) when absent. -/
def fsRemove (files : List (Str × Str)) (f : Str) : Option (List (Str × Str)) :=
  if files.any (fun p => p.1 == f) then
    some (files.filter (fun p => !(p.1 == f)))
  else none

/-- The duplicate-name loop of ItemCollection.append for items whose `.name`
read can raise (the services): each iteration evaluates `item.name` first
(left operand of `item.name == value.name`), so the first stored service
makes the scan raise AttributeError; an empty collection skips the loop. -/
def dupCheck (nameOf : α → Except WErr Str) (v : α) : List α → Except WErr Unit
  | [] => Except.ok ()
  | item :: rest =>
    match nameOf item with
    | Except.error e => Except.error e
    | Except.ok n =>
      match nameOf v with
      | Except.error e => Except.error e
      | Except.ok vn =>
        if n = vn then Except.error WErr.alreadyExists else dupCheck nameOf v rest

/-- ItemCollection.append for items with a fallible `.name`: scan for a
duplicate, then append. -/
def collAppendAttr (nameOf : α → Except WErr Str) (l : List α) (v : α) :
    Except WErr (List α) :=
  match dupCheck nameOf v l with
  | Except.error e => Except.error e
  | Except.ok _ => Except.ok (l ++ [v])

/-- ItemCollection.get_item for items with a fallible `.name`: the loop
evaluates `item.name` on each stored item (raising AttributeError on the
first service), and falls through to DoesNotExist on an empty collection. -/
def collGetAttr (nameOf : α → Except WErr Str) (nm : Str) : List α → Except WErr α
  | [] => Except.error WErr.doesNotExist
  | item :: rest =>
    match nameOf item with
    | Except.error e => Except.error e
    | Except.ok n => if n = nm then Except.ok item else collGetAttr nameOf nm rest

/-- ServiceManager.create_service: constructs the Service — with the default
service_dir the constructor itself raises AttributeError before mkdir; with
an explicit directory the constructor succeeds (and creates the directory),
the script text is rendered from the call's own arguments, but
`open(service.service_file, "w")` raises AttributeError reading the name —
so no script is ever written and no service is ever registered.  The
(unreachable) tail mirrors the source: write the file, then append to the
collection, where only a duplicate name raises AlreadyExists. -/
def create_service (st : SMState) (path name output : Str)
    (service_dir : Option Str) (handler : Option Str) : SMState × Option WErr :=
  match mkService st.dirs path name service_dir with
  | (dirs', Except.error e) => (SMState.mk st.services st.files dirs', some e)
  | (dirs', Except.ok svc) =>
    match Service.serviceFile svc with
    | Except.error e => (SMState.mk st.services st.files dirs', some e)
    | Except.ok sf =>
      let files' := fsWrite st.files sf (genBlock path name output handler)
      match collAppendAttr Service.nameAttr st.services svc with
      | Except.ok l => (SMState.mk l files' dirs', none)
      | Except.error e => (SMState.mk st.services files' dirs', some e)

/-- ServiceManager.clean_files: looks the service up (DoesNotExist on the
necessarily-empty registry; AttributeError at `item.name` otherwise), then
runs both `os.remove` calls inside a single try/except FileNotFoundError —
evaluating `service.service_file` (which can raise AttributeError) inside
the try; if the first remove raises FileNotFoundError, the output file is
never even computed, let alone removed. -/
def clean_files (st : SMState) (name : Str) : Except WErr SMState :=
  match collGetAttr Service.nameAttr name st.services with
  | Except.error e => Except.error e
  | Except.ok svc =>
    match Service.serviceFile svc with
    | Except.error e => Except.error e
    | Except.ok sf =>
      match fsRemove st.files sf with
      | none => Except.ok (SMState.mk st.services st.files st.dirs)
      | some fs1 =>
        match Service.outputFile svc with
        | Except.error e => Except.error e
        | Except.ok ofile =>
          match fsRemove fs1 ofile with
          | none => Except.ok (SMState.mk st.services fs1 st.dirs)
          | some fs2 => Except.ok (SMState.mk st.services fs2 st.dirs)

/-- ServiceManager.start_service: looks the service up, executes its launch
command via os.system (returned here as data), and flips is_active on the
looked-up service object (modelled as replacing that value in the
registry).  Both the lookup and the launch-command computation raise for
every program-built service. -/
def start_service (st : SMState) (name : Str) : Except WErr (SMState × Str) :=
  match collGetAttr Service.nameAttr name st.services with
  | Except.error e => Except.error e
  | Except.ok svc =>
    match Service.launchCommand svc with
    | Except.error e => Except.error e
    | Except.ok cmd =>
      Except.ok
        (SMState.mk
          (st.services.replace svc (Service.mk svc.nameDict svc.path svc.service_dir true))
          st.files st.dirs,
          cmd)

/-- ServiceManager.send_signal: looks the service up (DoesNotExist
propagates; AttributeError for a non-empty registry), raises ServiceNotFound
when the in-memory is_active flag is false, otherwise resolves the pid by
the process-table scan (whose pattern construction raises AttributeError for
program-built services) and delivers the signal to that pid — the delivery
is returned as the (pid, signal) pair passed to os.kill. -/
def send_signal (st : SMState) (psLines : List Str) (name : Str) (sig : Int) :
    Except WErr (Int × Int) :=
  match collGetAttr Service.nameAttr name st.services with
  | Except.error e => Except.error e
  | Except.ok svc =>
    if svc.is_active = false then Except.error WErr.serviceNotFound
    else
      match get_pid svc psLines with
      | Except.error e => Except.error e
      | Except.ok pid => Except.ok (pid, sig)

/-! ## The pid signature can never match the launch command (C10)

The signature contains the two-character sequence space-then-dot (in
`"-u ./"`), while the launch command — whose only space-adjacent characters
come from fixed segments and from shlex-quoted paths — never puts a dot
right after a space.  `noSpaceDot` scans a string for that sequence. -/

/-- True when no space is immediately followed by a dot. -/
def noSpaceDot : Str → Bool
  | [] => true
  | [_] => true
  | a :: b :: rest =>
    if a = spaceChar ∧ b = '.' then false else noSpaceDot (b :: rest)

/-- The launch command of a default-directory service with a safe name, in
right-nested form (derived below in `launchCommand_default`). -/
def cmdOf (name : Str) : Str :=
  ("nohup python3 -u ").data ++
    (quoteChar ::
      (name ++
        ((" watchdog-service/").data ++
          (name ++
            (("_service.py").data ++
              (quoteChar :: spaceChar :: spaceChar :: '>' :: spaceChar :: quoteChar ::
                (name ++
                  ((" watchdog-service/").data ++
                    (name ++
                      (("_output.txt").data ++
                        (quoteChar :: spaceChar :: '&' :: [])))))))))))

/-! ## Theorems -/

/-- Helper: `collAppend` errors exactly when a stored name collides. -/
theorem collAppend_spec (nameOf : α → Str) (l : List α) (v : α) :
    (l.any (fun it => nameOf it == nameOf v) = true →
      collAppend nameOf l v = Except.error WErr.alreadyExists)
    ∧ (l.any (fun it => nameOf it == nameOf v) = false →
      collAppend nameOf l v = Except.ok (l ++ [v])) := by
  constructor <;> intro h <;> simp [collAppend, h]

/-- C1: appending an item whose name is already present in the collection
fails with AlreadyExists, and the error result leaves the caller's registry
value untouched (the raise happens before the underlying list append, so the
collection keeps its cardinality and order); appending a fresh name succeeds
and appends at the end, preserving the order of all previous items. -/
theorem c1_itemCollection_append (l : List RItem) (v : RItem) :
    ((∃ it ∈ l, it.name = v.name) →
      collAppend RItem.name l v = Except.error WErr.alreadyExists)
    ∧ ((∀ it ∈ l, it.name ≠ v.name) →
      collAppend RItem.name l v = Except.ok (l ++ [v])) := by
  constructor
  · intro h
    apply (collAppend_spec RItem.name l v).1
    simp only [List.any_eq_true, beq_iff_eq]
    obtain ⟨it, hmem, hname⟩ := h
    exact ⟨it, hmem, hname⟩
  · intro h
    apply (collAppend_spec RItem.name l v).2
    simp only [List.any_eq_false, beq_iff_eq]
    exact h

/-- Witness for C1 at a concrete collection: the duplicate name "a" is
rejected while the fresh name "b" is appended at the end. -/
theorem c1_itemCollection_append_witness :
    ((∃ it ∈ [RItem.mk ("a").data 0], it.name = (RItem.mk ("a").data 1).name) ∧
      collAppend RItem.name [RItem.mk ("a").data 0] (RItem.mk ("a").data 1) =
        Except.error WErr.alreadyExists)
    ∧ ((∀ it ∈ [RItem.mk ("a").data 0], it.name ≠ (RItem.mk ("b").data 2).name) ∧
      collAppend RItem.name [RItem.mk ("a").data 0] (RItem.mk ("b").data 2) =
        Except.ok [RItem.mk ("a").data 0, RItem.mk ("b").data 2]) := by
  refine ⟨⟨by decide, ?_⟩, ⟨by decide, ?_⟩⟩
  · exact (c1_itemCollection_append _ _).1 (by decide)
  · exact (c1_itemCollection_append _ _).2 (by decide)

/-- Helper: a name absent from every stored observer makes the duplicate
scan come back false. -/
theorem obs_any_eq_false_of_fresh (l : List Observer) (n : Str)
    (h : ∀ o ∈ l, o.name ≠ n) : l.any (fun it => it.name == n) = false := by
  simp only [List.any_eq_false, beq_iff_eq]
  exact h

/-- Helper: `find?` skips a block in which nothing satisfies the test. -/
theorem find?_append_of_none {α : Type} (p : α → Bool) (l1 l2 : List α)
    (h : l1.find? p = none) : (l1 ++ l2).find? p = l2.find? p := by
  induction l1 with
  | nil => rfl
  | cons a l ih =>
    rw [List.find?_cons] at h
    cases hp : p a with
    | true => simp [hp] at h
    | false =>
      rw [hp] at h
      simp only [List.cons_append, List.find?_cons, hp]
      exact ih h

/-- C9 counterexample: with two observers of which the first one's start
raises, every worker still runs (the futures hold one failure and one
success), yet the call returns `ok` — the collected failure is silently
discarded, not reported to the caller, refuting the claim that all
per-worker failures are reported in aggregate. -/
theorem c9_failures_not_reported_cex :
    submitAll (fun o => if o = 0 then Except.error () else Except.ok ()) [0, 1] =
      [Except.error (), Except.ok ()]
    ∧ start_observers_run
        (fun o => if o = 0 then Except.error () else Except.ok ()) [0, 1] =
      Except.ok () := by
  exact ⟨rfl, rfl⟩

/-- C9 (amended): a failure thrown while starting one observer does not
prevent the others from being attempted — every observer in the batch is
submitted, and worker `i`'s outcome is exactly `run` of observer `i`,
independent of the other workers — but the collected failures are never
reported: the call always returns `ok`, silently suppressing them. -/
theorem c9_fanout_fail_independent (run : Nat → Except Unit Unit)
    (observers : List Nat) :
    ((submitAll run observers).length = observers.length)
    ∧ (∀ i : Nat, (submitAll run observers)[i]? = (observers[i]?).map run)
    ∧ (start_observers_run run observers = Except.ok ()) := by
  refine ⟨?_, ?_, rfl⟩
  · induction observers with
    | nil => rfl
    | cons o rest ih => simpa [submitAll] using ih
  · intro i
    induction observers generalizing i with
    | nil => simp [submitAll]
    | cons o rest ih =>
      cases i with
      | zero => simp [submitAll]
      | succ j => simpa [submitAll] using ih j

/-- Dropping the head preserves the scan. -/
theorem noSpaceDot_tail (a : Char) (l : Str) (h : noSpaceDot (a :: l) = true) :
    noSpaceDot l = true := by
  cases l with
  | nil => rfl
  | cons b t =>
    rw [noSpaceDot] at h
    by_cases hab : a = spaceChar ∧ b = '.'
    · rw [if_pos hab] at h
      exact absurd h (by decide)
    · rwa [if_neg hab] at h

/-- A string whose scan is clean keeps a clean scan on any leading block. -/
theorem noSpaceDot_of_leadsWith (p : Str) :
    ∀ l : Str, leadsWith p l = true → noSpaceDot l = true → noSpaceDot p = true := by
  induction p with
  | nil => intro l _ _; rfl
  | cons a pa ih =>
    intro l hlw hns
    cases l with
    | nil => exact absurd hlw (by rw [leadsWith]; decide)
    | cons b lb =>
      rw [leadsWith, Bool.and_eq_true, beq_iff_eq] at hlw
      obtain ⟨hab, hlw'⟩ := hlw
      cases pa with
      | nil => rfl
      | cons c pa' =>
        cases lb with
        | nil => exact absurd hlw' (by rw [leadsWith]; decide)
        | cons d lb' =>
          rw [leadsWith, Bool.and_eq_true, beq_iff_eq] at hlw'
          obtain ⟨hcd, hlw''⟩ := hlw'
          have hpair : ¬(b = spaceChar ∧ d = '.') := by
            intro hbad
            rw [noSpaceDot, if_pos hbad] at hns
            exact absurd hns (by decide)
          have hns' : noSpaceDot (d :: lb') = true := by
            rw [noSpaceDot, if_neg hpair] at hns
            exact hns
          have hrec : noSpaceDot (c :: pa') = true :=
            ih (d :: lb') (by rw [leadsWith, Bool.and_eq_true, beq_iff_eq]; exact ⟨hcd, hlw''⟩) hns'
          rw [noSpaceDot]
          rw [if_neg (by rw [hab, hcd]; exact hpair)]
          exact hrec

/-- A clean scan passes to any substring. -/
theorem containsSub_noSpaceDot (p : Str) :
    ∀ l : Str, containsSub p l = true → noSpaceDot l = true → noSpaceDot p = true := by
  intro l
  induction l with
  | nil =>
    intro hc _
    rw [containsSub] at hc
    cases p with
    | nil => rfl
    | cons a pa => exact absurd hc (by rw [leadsWith]; decide)
  | cons b rest ih =>
    intro hc hns
    rw [containsSub, Bool.or_eq_true] at hc
    cases hc with
    | inl hlw => exact noSpaceDot_of_leadsWith p (b :: rest) hlw hns
    | inr hsub => exact ih hsub (noSpaceDot_tail b rest hns)

/-- Concatenation of clean blocks stays clean provided the boundary does not
put a dot after a space. -/
theorem noSpaceDot_append (l r : Str) (h1 : noSpaceDot l = true)
    (h2 : noSpaceDot r = true)
    (h3 : l.getLast? ≠ some spaceChar ∨ r.head? ≠ some ('.')) :
    noSpaceDot (l ++ r) = true := by
  induction l with
  | nil => simpa using h2
  | cons a t ih =>
    cases t with
    | nil =>
      cases r with
      | nil => rfl
      | cons b r' =>
        have hb : ¬(a = spaceChar ∧ b = '.') := by
          intro hbad
          cases h3 with
          | inl hl => exact hl (by rw [hbad.1]; rfl)
          | inr hr => exact hr (by rw [List.head?_cons, hbad.2])
        rw [List.cons_append, List.nil_append, noSpaceDot, if_neg hb]
        exact h2
    | cons a' t' =>
      have hpair : ¬(a = spaceChar ∧ a' = '.') := by
        intro hbad
        rw [noSpaceDot, if_pos hbad] at h1
        exact absurd h1 (by decide)
      have h1' : noSpaceDot (a' :: t') = true := by
        rw [noSpaceDot, if_neg hpair] at h1
        exact h1
      have h3' : (a' :: t').getLast? ≠ some spaceChar ∨ r.head? ≠ some ('.') := by
        cases h3 with
        | inl hl => exact Or.inl (by rwa [List.getLast?_cons_cons] at hl)
        | inr hr => exact Or.inr hr
      have := ih h1' h3'
      rw [List.cons_append, List.cons_append, noSpaceDot]
      rw [List.cons_append] at this
      rw [if_neg hpair]
      exact this

/-- A block without spaces has a clean scan. -/
theorem noSpaceDot_of_no_space (l : Str) (h : ∀ c ∈ l, c ≠ spaceChar) :
    noSpaceDot l = true := by
  induction l with
  | nil => rfl
  | cons a t ih =>
    cases t with
    | nil => rfl
    | cons b t' =>
      rw [noSpaceDot, if_neg]
      · exact ih (fun c hc => h c (List.mem_cons_of_mem a hc))
      · intro hbad
        exact h a (List.mem_cons_self a _) hbad.1

/-- A block without spaces does not end in a space. -/
theorem getLast?_ne_space_of_no_space (l : Str) (h : ∀ c ∈ l, c ≠ spaceChar) :
    l.getLast? ≠ some spaceChar := by
  intro hc
  obtain ⟨hne, hx⟩ := List.mem_getLast?_eq_getLast hc
  exact h spaceChar (hx ▸ List.getLast_mem hne) rfl

/-- The signature starts with a fixed block containing a space followed by a
dot, so its scan fails whatever the name. -/
theorem noSpaceDot_sig_head (x : Str) :
    noSpaceDot (("python3 -u ./").data ++ x) = false := rfl

/-- Format leaves a brace-free template alone. -/
theorem pyFormat_no_lbrace (l arg : Str) (h : lbrace ∉ l) : pyFormat l arg = l := by
  induction l with
  | nil => rfl
  | cons c t ih =>
    cases t with
    | nil => rfl
    | cons d t' =>
      rw [pyFormat, if_neg]
      · rw [ih (fun hm => h (List.mem_cons_of_mem c hm))]
      · intro hbad
        exact h (hbad.1 ▸ List.mem_cons_self c _)

/-- Format distributes over an append whose left part is brace-free. -/
theorem pyFormat_append_no_lbrace (l r arg : Str) (h : lbrace ∉ l) :
    pyFormat (l ++ r) arg = l ++ pyFormat r arg := by
  induction l with
  | nil => simp
  | cons c t ih =>
    cases t with
    | nil =>
      cases r with
      | nil => rfl
      | cons d r' =>
        rw [List.cons_append, List.nil_append, pyFormat, if_neg]
        · rfl
        · intro hbad
          exact h (hbad.1 ▸ List.mem_cons_self c _)
    | cons e t' =>
      rw [List.cons_append, List.cons_append, pyFormat, if_neg]
      · rw [← List.cons_append, ih (fun hm => h (List.mem_cons_of_mem c hm))]
        rfl
      · intro hbad
        exact h (hbad.1 ▸ List.mem_cons_self c _)

/-- The quote escape leaves a quote-free block alone. -/
theorem escQuote_id (l : Str) (h : ∀ c ∈ l, c ≠ quoteChar) : escQuote l = l := by
  induction l with
  | nil => rfl
  | cons c t ih =>
    rw [escQuote, if_neg (h c (List.mem_cons_self c _))]
    rw [ih (fun d hd => h d (List.mem_cons_of_mem c hd))]

/-- Lowercasing is the identity on a name without uppercase letters. -/
theorem lowerStr_fixed (l : Str) (h : ∀ c ∈ l, Char.toLower c = c) :
    lowerStr l = l := by
  induction l with
  | nil => rfl
  | cons c t ih =>
    simp only [lowerStr, List.map_cons]
    rw [h c (List.mem_cons_self c _)]
    have := ih (fun d hd => h d (List.mem_cons_of_mem c hd))
    simp only [lowerStr] at this
    rw [this]

/-- shlex.quote is the identity on a nonempty all-safe string. -/
theorem shlexQuote_safe (l : Str) (hne : l ≠ []) (hall : l.all isShlexSafe = true) :
    shlexQuote l = l := by
  unfold shlexQuote
  rw [if_neg hne, if_pos hall]

/-- shlex.quote wraps an unsafe quote-free string in single quotes. -/
theorem shlexQuote_unsafe_noquote (l : Str) (hne : l ≠ [])
    (hAllFalse : l.all isShlexSafe = false) (hq : ∀ c ∈ l, c ≠ quoteChar) :
    shlexQuote l = (quoteChar :: l) ++ [quoteChar] := by
  unfold shlexQuote
  rw [if_neg hne, if_neg (by simp [hAllFalse]), escQuote_id l hq]

/-- A shlex-safe character is not a space, quote or brace. -/
theorem safe_char_ne (c : Char) (h : isShlexSafe c = true) :
    c ≠ spaceChar ∧ c ≠ quoteChar ∧ c ≠ lbrace := by
  refine ⟨?_, ?_, ?_⟩ <;> intro he <;> rw [he] at h <;> exact absurd h (by decide)

/-- Formatting a slash-then-field template inserts the argument. -/
theorem pyFormat_slash_braces (tail arg : Str) (h : lbrace ∉ tail) :
    pyFormat ('/' :: lbrace :: rbrace :: tail) arg = '/' :: (arg ++ tail) := by
  simp only [pyFormat]
  rw [if_neg (by decide), if_pos (by decide)]
  rw [pyFormat_no_lbrace _ _ h]

/-- The default service directory never ends in a slash and is nonempty. -/
theorem default_dir_facts (name : Str) :
    name ++ (" watchdog-service").data ≠ [] ∧
    (name ++ (" watchdog-service").data).getLast? ≠ some '/' := by
  constructor
  · intro h0
    exact absurd (List.append_eq_nil.mp h0).2 (by decide)
  · rw [List.getLast?_append_of_ne_nil _ (by decide)]
    decide

/-- A clean scan extends through a safe head character. -/
theorem noSpaceDot_cons (c : Char) (l : Str) (h : noSpaceDot l = true)
    (h2 : c ≠ spaceChar ∨ l.head? ≠ some ('.')) : noSpaceDot (c :: l) = true := by
  cases l with
  | nil => rfl
  | cons b t =>
    rw [noSpaceDot, if_neg]
    · exact h
    · intro hbad
      cases h2 with
      | inl hl => exact hl hbad.1
      | inr hr => exact hr (by rw [List.head?_cons, hbad.2])

/-- The body of a default quoted path is nonempty, not all-safe, and free of
quotes. -/
theorem quoted_body_facts (name tail : Str)
    (hsafe : ∀ c ∈ name, isShlexSafe c = true ∧ Char.toLower c = c)
    (htq : ∀ c ∈ tail, c ≠ quoteChar) :
    ((name ++ (" watchdog-service").data) ++ '/' :: (name ++ tail) ≠ [])
    ∧ (((name ++ (" watchdog-service").data) ++ '/' :: (name ++ tail)).all isShlexSafe = false)
    ∧ (∀ c ∈ (name ++ (" watchdog-service").data) ++ '/' :: (name ++ tail), c ≠ quoteChar) := by
  refine ⟨by simp, ?_, ?_⟩
  · rw [List.all_eq_false]
    refine ⟨spaceChar, ?_, by decide⟩
    exact List.mem_append.mpr (Or.inl (List.mem_append.mpr (Or.inr (by decide))))
  · intro c hc
    rcases List.mem_append.mp hc with h1 | h2
    · rcases List.mem_append.mp h1 with h1a | h1b
      · exact (safe_char_ne c (hsafe c h1a).1).2.1
      · have hwd : ∀ x ∈ (" watchdog-service").data, x ≠ quoteChar := by decide
        exact hwd c h1b
    · rcases List.mem_cons.mp h2 with h2a | h2b
      · rw [h2a]
        decide
      · rcases List.mem_append.mp h2b with h2c | h2d
        · exact (safe_char_ne c (hsafe c h2c).1).2.1
        · exact htq c h2d

/-- The default launch command has a clean space-dot scan. -/
theorem cmdOf_noSpaceDot (name : Str)
    (hsafe : ∀ c ∈ name, isShlexSafe c = true ∧ Char.toLower c = c) :
    noSpaceDot (cmdOf name) = true := by
  have hnsp : ∀ c ∈ name, c ≠ spaceChar :=
    fun c hc => (safe_char_ne c (hsafe c hc).1).1
  have hnsdN : noSpaceDot name = true := noSpaceDot_of_no_space name hnsp
  have hlastN : name.getLast? ≠ some spaceChar := getLast?_ne_space_of_no_space name hnsp
  unfold cmdOf
  refine noSpaceDot_append _ _ (by decide) ?_ (Or.inr (by rw [List.head?_cons]; decide))
  refine noSpaceDot_cons _ _ ?_ (Or.inl (by decide))
  refine noSpaceDot_append _ _ hnsdN ?_ (Or.inl hlastN)
  refine noSpaceDot_append _ _ (by decide) ?_ (Or.inl (by decide))
  refine noSpaceDot_append _ _ hnsdN ?_ (Or.inl hlastN)
  refine noSpaceDot_append _ _ (by decide) ?_ (Or.inl (by decide))
  refine noSpaceDot_cons _ _ ?_ (Or.inl (by decide))
  refine noSpaceDot_cons _ _ ?_ (Or.inr (by rw [List.head?_cons]; decide))
  refine noSpaceDot_cons _ _ ?_ (Or.inr (by rw [List.head?_cons]; decide))
  refine noSpaceDot_cons _ _ ?_ (Or.inl (by decide))
  refine noSpaceDot_cons _ _ ?_ (Or.inr (by rw [List.head?_cons]; decide))
  refine noSpaceDot_cons _ _ ?_ (Or.inl (by decide))
  refine noSpaceDot_append _ _ hnsdN ?_ (Or.inl hlastN)
  refine noSpaceDot_append _ _ (by decide) ?_ (Or.inl (by decide))
  refine noSpaceDot_append _ _ hnsdN ?_ (Or.inl hlastN)
  refine noSpaceDot_append _ _ (by decide) ?_ (Or.inl (by decide))
  decide

/-- C4: evaluating the script generator at name "watcher1", path "/data",
output "/data/out.log" shows the path and name round-trip as repr-quoted
string literals, but the output file and the start_observer argument are
interpolated without repr: the script contains the bare tokens
"log_file=/data/out.log" and "start_observer(watcher1)" and not their
quoted forms — the former is not a syntactically valid Python expression, so
the generated script is not loadable. -/
theorem c4_script_not_loadable_eval :
    (containsSub (("path = ").data ++ pyRepr (("/data").data))
      (genBlock ("/data").data ("watcher1").data ("/data/out.log").data none) = true)
    ∧ (containsSub ((", name=").data ++ pyRepr (("watcher1").data))
      (genBlock ("/data").data ("watcher1").data ("/data/out.log").data none) = true)
    ∧ (containsSub ((", log_file=/data/out.log)").data)
      (genBlock ("/data").data ("watcher1").data ("/data/out.log").data none) = true)
    ∧ (containsSub ((", log_file=").data ++ pyRepr (("/data/out.log").data))
      (genBlock ("/data").data ("watcher1").data ("/data/out.log").data none) = false)
    ∧ (containsSub (("manager.start_observer(watcher1)").data)
      (genBlock ("/data").data ("watcher1").data ("/data/out.log").data none) = true)
    ∧ (containsSub (("manager.start_observer(").data ++ pyRepr (("watcher1").data)
        ++ (")").data)
      (genBlock ("/data").data ("watcher1").data ("/data/out.log").data none) = false) := by
  exact ⟨rfl, rfl, rfl, rfl, rfl, rfl⟩

/-- Helper: when both constructor calls succeed and the name is fresh,
create_observer appends the observer and returns it with the captured
configuration. -/
theorem create_observer_fresh (eNew hNew : List Nat → Except WErr Unit)
    (st : OMState) (p n : Str) (r : Bool)
    (hE : eNew st.observerCfg = Except.ok ())
    (hH : hNew st.handlerCfg = Except.ok ())
    (hany : st.observers.any (fun it => it.name == n) = false) :
    create_observer eNew hNew st p n r =
      (OMState.mk st.observerCfg st.handlerCfg
        (st.observers ++ [Observer.mk n p r st.observerCfg st.handlerCfg]),
        Except.ok (Observer.mk n p r st.observerCfg st.handlerCfg)) := by
  unfold create_observer
  rw [hE, hH]
  simp only [collAppend, hany, Bool.false_eq_true, if_false]

/-- Helper: create_observer keeps the stored names pairwise distinct, also
when a constructor call or the duplicate check fails. -/
theorem create_observer_nodup (eNew hNew : List Nat → Except WErr Unit)
    (st : OMState) (p n : Str) (r : Bool)
    (h : obsNamesNodup st) : obsNamesNodup (create_observer eNew hNew st p n r).1 := by
  unfold create_observer
  cases heq : eNew st.observerCfg with
  | error e => exact h
  | ok u =>
    cases heq2 : hNew st.handlerCfg with
    | error e => exact h
    | ok u2 =>
      by_cases hdup : st.observers.any (fun it => it.name == n) = true
      · simp only [collAppend, hdup, if_true]
        exact h
      · have hdup' := eq_false_of_ne_true hdup
        simp only [collAppend, hdup', Bool.false_eq_true, if_false]
        unfold obsNamesNodup at h ⊢
        simp only [List.map_append, List.map_cons, List.map_nil, List.nodup_append]
        refine ⟨h, List.nodup_singleton _, ?_⟩
        intro a ha hb
        simp only [List.mem_singleton] at hb
        subst hb
        simp only [List.mem_map] at ha
        obtain ⟨it, hit, hname⟩ := ha
        have := List.any_eq_false.mp hdup' it hit
        simp only [beq_iff_eq] at this
        exact this hname

/-- C6 counterexample: on the fresh default ObserverManager the FIRST
createObserver already fails — the default WatchdogPlusLogEventHandler
constructor needs filter_modified, so `self.HandlerClass()` raises
TypeError — hence the second call also fails with TypeError (not
AlreadyExists) and getObserver("a") finds nothing, refuting the claimed
scenario on a fresh default manager. -/
theorem c6_default_manager_first_create_fails_cex :
    ((create_observer watchdogPlusObserverNew watchdogPlusLogEventHandlerNew
        (OMState.mk [] [] []) ("/tmp/x").data ("a").data false).2 =
      Except.error WErr.typeError)
    ∧ ((create_observer watchdogPlusObserverNew watchdogPlusLogEventHandlerNew
        ((create_observer watchdogPlusObserverNew watchdogPlusLogEventHandlerNew
          (OMState.mk [] [] []) ("/tmp/x").data ("a").data false).1)
        ("/tmp/y").data ("a").data false).2 =
      Except.error WErr.typeError)
    ∧ (get_observer ((create_observer watchdogPlusObserverNew watchdogPlusLogEventHandlerNew
        ((create_observer watchdogPlusObserverNew watchdogPlusLogEventHandlerNew
          (OMState.mk [] [] []) ("/tmp/x").data ("a").data false).1)
        ("/tmp/y").data ("a").data false).1) ("a").data =
      Except.error WErr.doesNotExist) := by
  exact ⟨rfl, rfl, rfl⟩

/-- C6 (amended): on a manager whose configured engine and handler
constructors accept the stored configuration (the default handler needs a
prior handler_config supplying filter_modified; a bare default manager's
first createObserver raises TypeError instead), creating "a" and then "a"
again fails on the second call with AlreadyExists and leaves the registry as
after the first call, getObserver("a") still returns the first observer, and
every create_observer call keeps the registered names pairwise distinct. -/
theorem c6_create_observer_unique_names
    (eNew hNew : List Nat → Except WErr Unit) (st : OMState)
    (nm px py : Str) (r : Bool)
    (hE : eNew st.observerCfg = Except.ok ())
    (hH : hNew st.handlerCfg = Except.ok ())
    (hfresh : ∀ o ∈ st.observers, o.name ≠ nm) :
    ((create_observer eNew hNew st px nm r).2 =
      Except.ok (Observer.mk nm px r st.observerCfg st.handlerCfg))
    ∧ ((create_observer eNew hNew ((create_observer eNew hNew st px nm r).1) py nm r).2 =
      Except.error WErr.alreadyExists)
    ∧ ((create_observer eNew hNew ((create_observer eNew hNew st px nm r).1) py nm r).1 =
      (create_observer eNew hNew st px nm r).1)
    ∧ (get_observer ((create_observer eNew hNew st px nm r).1) nm =
      Except.ok (Observer.mk nm px r st.observerCfg st.handlerCfg))
    ∧ (∀ (st' : OMState) (p n : Str) (r' : Bool),
        obsNamesNodup st' → obsNamesNodup (create_observer eNew hNew st' p n r').1) := by
  have hany := obs_any_eq_false_of_fresh st.observers nm hfresh
  have h1 := create_observer_fresh eNew hNew st px nm r hE hH hany
  have hdup2 : (create_observer eNew hNew
      (OMState.mk st.observerCfg st.handlerCfg
        (st.observers ++ [Observer.mk nm px r st.observerCfg st.handlerCfg])) py nm r) =
      (OMState.mk st.observerCfg st.handlerCfg
        (st.observers ++ [Observer.mk nm px r st.observerCfg st.handlerCfg]),
        Except.error WErr.alreadyExists) := by
    have hE1 : eNew (OMState.mk st.observerCfg st.handlerCfg
        (st.observers ++ [Observer.mk nm px r st.observerCfg st.handlerCfg])).observerCfg =
        Except.ok () := hE
    have hH1 : hNew (OMState.mk st.observerCfg st.handlerCfg
        (st.observers ++ [Observer.mk nm px r st.observerCfg st.handlerCfg])).handlerCfg =
        Except.ok () := hH
    unfold create_observer
    rw [hE1, hH1]
    simp [collAppend]
  have hget : get_observer (OMState.mk st.observerCfg st.handlerCfg
        (st.observers ++ [Observer.mk nm px r st.observerCfg st.handlerCfg])) nm =
      Except.ok (Observer.mk nm px r st.observerCfg st.handlerCfg) := by
    unfold get_observer collGet
    have hnone : st.observers.find? (fun it => it.name == nm) = none := by
      rw [List.find?_eq_none]
      intro o ho
      simpa using hfresh o ho
    have := find?_append_of_none (fun it : Observer => it.name == nm)
      st.observers [Observer.mk nm px r st.observerCfg st.handlerCfg] hnone
    simp only at this ⊢
    rw [this]
    simp [List.find?_cons]
  refine ⟨by rw [h1], ?_, ?_, ?_, ?_⟩
  · rw [h1]
    dsimp only
    rw [hdup2]
  · rw [h1]
    dsimp only
    rw [hdup2]
  · rw [h1]
    exact hget
  · exact fun st' p n r' h => create_observer_nodup eNew hNew st' p n r' h

/-- Witness for C6 on the fresh manager configured like demo.py
(handler_config supplying filter_modified) with the default classes. -/
theorem c6_create_observer_unique_names_witness :
    (watchdogPlusObserverNew (OMState.mk [] [5] []).observerCfg = Except.ok ())
    ∧ (watchdogPlusLogEventHandlerNew (OMState.mk [] [5] []).handlerCfg = Except.ok ())
    ∧ ((create_observer watchdogPlusObserverNew watchdogPlusLogEventHandlerNew
        ((create_observer watchdogPlusObserverNew watchdogPlusLogEventHandlerNew
          (OMState.mk [] [5] []) ("/tmp/x").data ("a").data false).1)
        ("/tmp/y").data ("a").data false).2 = Except.error WErr.alreadyExists)
    ∧ (get_observer ((create_observer watchdogPlusObserverNew watchdogPlusLogEventHandlerNew
        (OMState.mk [] [5] []) ("/tmp/x").data ("a").data false).1) ("a").data =
      Except.ok (Observer.mk ("a").data ("/tmp/x").data false [] [5])) := by
  refine ⟨rfl, rfl, ?_, ?_⟩
  · exact (c6_create_observer_unique_names watchdogPlusObserverNew
      watchdogPlusLogEventHandlerNew (OMState.mk [] [5] []) ("a").data
      ("/tmp/x").data ("/tmp/y").data false rfl rfl (by simp)).2.1
  · exact (c6_create_observer_unique_names watchdogPlusObserverNew
      watchdogPlusLogEventHandlerNew (OMState.mk [] [5] []) ("a").data
      ("/tmp/x").data ("/tmp/y").data false rfl rfl (by simp)).2.2.2.1

/-- C8: observer_config / handler_config leave every already-created
observer untouched (the registry list is unchanged, and each stored
observer's captured configuration is a field of that value), while an
observer created after the call — when the configured constructors accept
the accumulated arguments — is built with the newly stored configuration
appended to the previous one.  (When the arguments do not fit, the
constructor call raises TypeError and no observer is created at all.) -/
theorem c8_config_binds_at_construction (eNew hNew : List Nat → Except WErr Unit)
    (st : OMState) (args : List Nat) (p n : Str) (r : Bool)
    (hfresh : ∀ o ∈ st.observers, o.name ≠ n) :
    ((observer_config st args).observers = st.observers)
    ∧ ((handler_config st args).observers = st.observers)
    ∧ (eNew (st.observerCfg ++ args) = Except.ok () →
        hNew st.handlerCfg = Except.ok () →
        (create_observer eNew hNew (observer_config st args) p n r).2 =
          Except.ok (Observer.mk n p r (st.observerCfg ++ args) st.handlerCfg))
    ∧ (eNew st.observerCfg = Except.ok () →
        hNew (st.handlerCfg ++ args) = Except.ok () →
        (create_observer eNew hNew (handler_config st args) p n r).2 =
          Except.ok (Observer.mk n p r st.observerCfg (st.handlerCfg ++ args))) := by
  have hany := obs_any_eq_false_of_fresh st.observers n hfresh
  refine ⟨rfl, rfl, ?_, ?_⟩
  · intro hE hH
    rw [create_observer_fresh eNew hNew (observer_config st args) p n r hE hH hany]
    rfl
  · intro hE hH
    rw [create_observer_fresh eNew hNew (handler_config st args) p n r hE hH hany]
    rfl

/-- Witness for C8: exactly demo.py's pattern — handler_config [5]
(filter_modified) on the fresh default manager, then a create that succeeds
and captures configuration [5], while the registry before the call is
unchanged. -/
theorem c8_config_binds_at_construction_witness :
    ((handler_config (OMState.mk [] [] []) [5]).observers = [])
    ∧ (watchdogPlusObserverNew (OMState.mk [] [] []).observerCfg = Except.ok ())
    ∧ (watchdogPlusLogEventHandlerNew ((OMState.mk [] [] []).handlerCfg ++ [5]) =
        Except.ok ())
    ∧ ((create_observer watchdogPlusObserverNew watchdogPlusLogEventHandlerNew
        (handler_config (OMState.mk [] [] []) [5]) ("/tmp/x").data ("a").data false).2 =
      Except.ok (Observer.mk ("a").data ("/tmp/x").data false [] [5])) := by
  refine ⟨rfl, rfl, rfl, ?_⟩
  exact (c8_config_binds_at_construction watchdogPlusObserverNew
    watchdogPlusLogEventHandlerNew (OMState.mk [] [] []) [5] ("/tmp/x").data
    ("a").data false (by simp)).2.2.2 rfl rfl

/-- Helper: the service file a service WOULD have if its name read
succeeded with a safe lowercase name and its directory is the default for
that name.  For program-built services the name read never succeeds; this
conditional form is what backs the launch-command analysis. -/
theorem serviceFile_of_name (svc : Service) (name : Str)
    (hname : Service.nameAttr svc = Except.ok name)
    (hdir : svc.service_dir = name ++ (" watchdog-service").data)
    (hsafe : ∀ c ∈ name, isShlexSafe c = true ∧ Char.toLower c = c)
    (hne : name ≠ []) :
    Service.serviceFile svc =
      Except.ok ((name ++ (" watchdog-service").data) ++
        '/' :: (name ++ ("_service.py").data)) := by
  have hlow : lowerStr name = name := lowerStr_fixed name (fun c hc => (hsafe c hc).2)
  have hall : name.all isShlexSafe = true :=
    List.all_eq_true.mpr (fun c hc => (hsafe c hc).1)
  unfold Service.serviceFile
  rw [hname]
  dsimp only
  rw [hdir, hlow, shlexQuote_safe name hne hall]
  congr 1
  unfold pathJoin
  rw [if_neg (by decide), if_neg (default_dir_facts name).1,
    if_neg (default_dir_facts name).2]
  rw [pyFormat_append_no_lbrace]
  · rw [pyFormat_slash_braces _ _ (by decide)]
  · intro hm
    rcases List.mem_append.mp hm with hm1 | hm2
    · exact (safe_char_ne lbrace (hsafe lbrace hm1).1).2.2 rfl
    · exact absurd hm2 (by decide)

/-- Helper: the output file under the same hypothetical name read. -/
theorem outputFile_of_name (svc : Service) (name : Str)
    (hname : Service.nameAttr svc = Except.ok name)
    (hdir : svc.service_dir = name ++ (" watchdog-service").data)
    (hsafe : ∀ c ∈ name, isShlexSafe c = true ∧ Char.toLower c = c)
    (hne : name ≠ []) :
    Service.outputFile svc =
      Except.ok ((name ++ (" watchdog-service").data) ++
        '/' :: (name ++ ("_output.txt").data)) := by
  have hlow : lowerStr name = name := lowerStr_fixed name (fun c hc => (hsafe c hc).2)
  have hall : name.all isShlexSafe = true :=
    List.all_eq_true.mpr (fun c hc => (hsafe c hc).1)
  unfold Service.outputFile
  rw [hname]
  dsimp only
  rw [hdir, hlow, shlexQuote_safe name hne hall]
  congr 1
  unfold pathJoin
  rw [if_neg (by decide), if_neg (default_dir_facts name).1,
    if_neg (default_dir_facts name).2]
  rw [pyFormat_append_no_lbrace]
  · rw [pyFormat_slash_braces _ _ (by decide)]
  · intro hm
    rcases List.mem_append.mp hm with hm1 | hm2
    · exact (safe_char_ne lbrace (hsafe lbrace hm1).1).2.2 rfl
    · exact absurd hm2 (by decide)

/-- Helper: the launch command under the same hypothetical name read, in
the right-nested `cmdOf` form. -/
theorem launchCommand_of_name (svc : Service) (name : Str)
    (hname : Service.nameAttr svc = Except.ok name)
    (hdir : svc.service_dir = name ++ (" watchdog-service").data)
    (hsafe : ∀ c ∈ name, isShlexSafe c = true ∧ Char.toLower c = c)
    (hne : name ≠ []) :
    Service.launchCommand svc = Except.ok (cmdOf name) := by
  have hsf := serviceFile_of_name svc name hname hdir hsafe hne
  have hof := outputFile_of_name svc name hname hdir hsafe hne
  have hfs := quoted_body_facts name (("_service.py").data) hsafe (by decide)
  have hfo := quoted_body_facts name (("_output.txt").data) hsafe (by decide)
  unfold Service.launchCommand
  rw [hsf]
  dsimp only
  rw [hof]
  dsimp only
  congr 1
  simp only [spaceJoin]
  rw [shlexQuote_unsafe_noquote _ hfs.1 hfs.2.1 hfs.2.2]
  rw [shlexQuote_unsafe_noquote _ hfo.1 hfo.2.1 hfo.2.2]
  simp only [List.append_assoc, List.cons_append, List.singleton_append, List.nil_append]
  rfl

/-- Helper: create_service never registers anything and never writes a
file — with the default directory the constructor raises AttributeError,
with an explicit directory the service-file read does. -/
theorem create_service_never_registers (st : SMState) (path name output : Str)
    (sd : Option Str) (h : Option Str) :
    ((create_service st path name output sd h).1.services = st.services)
    ∧ ((create_service st path name output sd h).1.files = st.files)
    ∧ ((create_service st path name output sd h).2 = some WErr.attributeError) := by
  cases sd with
  | none => exact ⟨rfl, rfl, rfl⟩
  | some d => exact ⟨rfl, rfl, rfl⟩

/-- C2: for every service the program can construct (an explicit directory;
the default-directory constructor already crashes), the pid accessor raises
AttributeError while building the search pattern — `self.name.lower()` hits
the ServiceName descriptor, whose `getattr(obj, "__name")` misses the
mangled `_WatchDogPlusService__name` entry — for EVERY process table, so it
can neither return a pid nor raise ServicePIDNotFound as the claim says. -/
theorem c2_pid_always_attribute_error (dirs : List Str) (path name d : Str)
    (ps : List Str) :
    ((mkService dirs path name (some d)).2 =
      Except.ok (Service.mk [(mangledNameKey, name)] path d false))
    ∧ (get_pid (Service.mk [(mangledNameKey, name)] path d false) ps =
      Except.error WErr.attributeError) := by
  exact ⟨rfl, rfl⟩

/-- C3: create_service can never do what the claim says: with the default
service directory the Service constructor raises AttributeError (reading
`self.name` for the directory f-string) and the whole state is untouched;
with an explicit directory the constructor succeeds (creating the
directory) but `open(service.service_file, "w")` raises AttributeError, so
no script is ever written and no service is ever registered. -/
theorem c3_create_service_never_writes_or_registers (st : SMState)
    (path name output d : Str) :
    (create_service st path name output none none = (st, some WErr.attributeError))
    ∧ ((create_service st path name output (some d) none).1.services = st.services)
    ∧ ((create_service st path name output (some d) none).1.files = st.files)
    ∧ ((create_service st path name output (some d) none).2 = some WErr.attributeError) := by
  exact ⟨rfl, (create_service_never_registers st path name output (some d) none).1,
    (create_service_never_registers st path name output (some d) none).2.1,
    (create_service_never_registers st path name output (some d) none).2.2⟩

/-- C5: clean_files can never clean: every reachable registry is empty
(create_service never registers — third conjunct), so the lookup raises
DoesNotExist; and even with a hand-registered program-shaped service the
lookup raises AttributeError at `item.name` before any removal, so neither
the claimed removals nor the claimed tolerance of missing files ever
happen. -/
theorem c5_clean_files_never_cleans (files : List (Str × Str)) (dirs : List Str)
    (name nm2 path2 d2 : Str) (rest : List Service) :
    (clean_files (SMState.mk [] files dirs) name = Except.error WErr.doesNotExist)
    ∧ (clean_files
        (SMState.mk (Service.mk [(mangledNameKey, nm2)] path2 d2 false :: rest) files dirs)
        name = Except.error WErr.attributeError)
    ∧ (∀ (st : SMState) (p n o : Str) (sd hd : Option Str),
        (create_service st p n o sd hd).1.services = st.services) := by
  refine ⟨rfl, rfl, ?_⟩
  intro st p n o sd hd
  exact (create_service_never_registers st p n o sd hd).1

/-- C7: send_signal can never check the is_active flag, let alone deliver a
signal: on every reachable manager the registry is empty (create_service
never registers — third conjunct) and the lookup raises DoesNotExist, and
with a hand-registered program-shaped service the lookup raises
AttributeError at `item.name` whatever the flag says (the `active` argument
below is arbitrary), so neither the claimed ServiceNotFound-iff-inactive
behavior nor pid resolution ever occurs. -/
theorem c7_send_signal_never_delivers (files : List (Str × Str)) (dirs : List Str)
    (name nm2 path2 d2 : Str) (active : Bool) (rest : List Service)
    (ps : List Str) (sig : Int) :
    (send_signal (SMState.mk [] files dirs) ps name sig =
      Except.error WErr.doesNotExist)
    ∧ (send_signal
        (SMState.mk (Service.mk [(mangledNameKey, nm2)] path2 d2 active :: rest) files dirs)
        ps name sig = Except.error WErr.attributeError)
    ∧ (∀ (st : SMState) (p n o : Str) (sd hd : Option Str),
        (create_service st p n o sd hd).1.services = st.services) := by
  refine ⟨rfl, rfl, ?_⟩
  intro st p n o sd hd
  exact (create_service_never_registers st p n o sd hd).1

/-- C10: the pid-discovery signature never matches the launch command that
start_service executes.  In the program this holds because no launch command
is ever executed: a default-directory service cannot even be constructed
(first conjunct), the registry stays empty forever (third conjunct), and
start_service on an empty registry fails with DoesNotExist (second
conjunct).  The fourth conjunct settles the claim's string-level rationale:
for any service value on which the name read would succeed with this safe
lowercase name and whose directory is the name's default, the launch
command that would be computed — quoting the space-containing
directory-relative path — never contains the signature
"python3 -u ./<name>_service". -/
theorem c10_signature_never_matches_launch (dirs : List Str) (path name : Str)
    (hsafe : ∀ c ∈ name, isShlexSafe c = true ∧ Char.toLower c = c)
    (hne : name ≠ []) :
    ((mkService dirs path name none).2 = Except.error WErr.attributeError)
    ∧ (∀ (files : List (Str × Str)) (dirs' : List Str) (nm : Str),
        start_service (SMState.mk [] files dirs') nm = Except.error WErr.doesNotExist)
    ∧ (∀ (st : SMState) (p n o : Str) (sd hd : Option Str),
        (create_service st p n o sd hd).1.services = st.services)
    ∧ (∀ (svc : Service) (cmd : Str),
        Service.nameAttr svc = Except.ok name →
        svc.service_dir = name ++ (" watchdog-service").data →
        Service.launchCommand svc = Except.ok cmd →
        containsSub (pid_pattern name) cmd = false) := by
  refine ⟨rfl, fun files dirs' nm => rfl,
    fun st p n o sd hd => (create_service_never_registers st p n o sd hd).1, ?_⟩
  intro svc cmd hname hdir hcmd
  rw [launchCommand_of_name svc name hname hdir hsafe hne] at hcmd
  injection hcmd with hc2
  subst hc2
  cases hc : containsSub (pid_pattern name) (cmdOf name) with
  | false => rfl
  | true =>
    have hgood := containsSub_noSpaceDot (pid_pattern name) (cmdOf name) hc
      (cmdOf_noSpaceDot name hsafe)
    have hbad : noSpaceDot (pid_pattern name) = false :=
      noSpaceDot_sig_head (lowerStr name ++ ("_service").data)
    rw [hgood] at hbad
    exact absurd hbad (by decide)

/-- Witness for C10 at the name "watcher1": the hypotheses hold, and the
string-level conjunct applied to a service value whose name read succeeds
(its dictionary holds the key ServiceName actually looks up) shows the
signature is not a substring of the command that value would launch. -/
theorem c10_signature_never_matches_launch_witness :
    (∀ c ∈ ("watcher1").data, isShlexSafe c = true ∧ Char.toLower c = c)
    ∧ ("watcher1").data ≠ []
    ∧ containsSub (pid_pattern ("watcher1").data) (cmdOf ("watcher1").data) = false := by
  refine ⟨by decide, by decide, ?_⟩
  exact (c10_signature_never_matches_launch [] ("/data").data ("watcher1").data
      (by decide) (by decide)).2.2.2
    (Service.mk [(serviceNameKey, ("watcher1").data)] ("/data").data
      (("watcher1 watchdog-service").data) false)
    (cmdOf ("watcher1").data) rfl rfl rfl
